import Mathlib

/-!
Verification of the query-builder and transaction coordinator of
`src/services/postgresClient.ts` (pizza point-of-sale backend).

The TypeScript `QueryBuilder<T>` class is embedded shallowly: its mutable
fields become a Lean structure, each chainable method becomes a function
from builder to builder, and each terminal operation is split into the
pure `...Call` part (the exact SQL text and positional parameter array
handed to `client.query(query, params)`) and, where a claim needs it, a
wrapper taking the database driver as an oracle
`String → List α → Except ε result`.

Filter values have an abstract type `α` (the source stores them in the
untyped `whereParams: any[]` array).  A WHERE condition string such as
`` `${column} = $${this.paramCount}` `` is represented structurally by
`Cond` together with `Cond.render`, which produces exactly the string the
source pushes onto `this.whereConditions`; the builder state therefore
carries the same information as the source's string list while letting
theorems speak about the placeholder indices occurring in the SQL.
-/

namespace PostgresClient

/-- One element of `this.whereConditions`.
`binop column op idx` stands for the pushed string
`column ++ " " ++ op ++ " $" ++ toString idx` (covering `eq`, `neq`, `gt`,
`lt`, `gte`, `lte`, `like`, `ilike`, whose `op` strings are `=`, `!=`, `>`,
`<`, `>=`, `<=`, `LIKE`, `ILIKE`); `inop column idxs` stands for
`column IN ($i, $j, ...)` with the placeholder indices `idxs`. -/
inductive Cond where
  | binop (column op : String) (idx : Nat)
  | inop (column : String) (idxs : List Nat)
deriving DecidableEq

/-- The exact condition string the TypeScript code pushes onto
`this.whereConditions`. -/
def Cond.render : Cond → String
  | .binop column op idx => column ++ " " ++ op ++ " $" ++ toString idx
  | .inop column idxs =>
      column ++ " IN (" ++
        String.intercalate ", " (idxs.map (fun i => "$" ++ toString i)) ++ ")"

/-- The placeholder indices occurring in one condition, in textual order. -/
def Cond.idxs : Cond → List Nat
  | .binop _ _ idx => [idx]
  | .inop _ idxs => idxs

/-- All placeholder indices of a condition list, in textual order. -/
def condIdxs (cs : List Cond) : List Nat :=
  (cs.map Cond.idxs).flatten

/-- The private fields of the TypeScript `QueryBuilder<T>` class, with the
same initial values as the field initializers in the source.  `α` is the
type of filter values (`any` in the source); `orderDirection` is the
source's `'ASC' | 'DESC'` string. -/
structure QueryBuilder (α : Type) where
  table : String
  columns : List String := ["*"]
  whereConditions : List Cond := []
  whereParams : List α := []
  orderByColumns : List String := []
  orderDirection : String := "ASC"
  limitValue : Option Int := none
  offsetValue : Option Int := none
  paramCount : Nat := 1

/-- `PostgresClient.from(table)` / `new QueryBuilder(table, client)`:
a fresh builder over the given table (`from` is a reserved word in Lean). -/
def fromTable (table : String) : QueryBuilder α :=
  { table := table }

namespace QueryBuilder

variable {α : Type}

/-- `select(columns)`: sets the projection list (the string overload wraps a
single column into a one-element list, so a list argument covers both). -/
def select (b : QueryBuilder α) (columns : List String) : QueryBuilder α :=
  { b with columns := columns }

/-- `eq(column, value)`: pushes `column = $paramCount`, pushes the value,
increments `paramCount`. -/
def eq (b : QueryBuilder α) (column : String) (value : α) : QueryBuilder α :=
  { b with
      whereConditions := b.whereConditions ++ [Cond.binop column "=" b.paramCount],
      whereParams := b.whereParams ++ [value],
      paramCount := b.paramCount + 1 }

/-- `neq(column, value)`: pushes `column != $paramCount`. -/
def neq (b : QueryBuilder α) (column : String) (value : α) : QueryBuilder α :=
  { b with
      whereConditions := b.whereConditions ++ [Cond.binop column "!=" b.paramCount],
      whereParams := b.whereParams ++ [value],
      paramCount := b.paramCount + 1 }

/-- `gt(column, value)`: pushes `column > $paramCount`. -/
def gt (b : QueryBuilder α) (column : String) (value : α) : QueryBuilder α :=
  { b with
      whereConditions := b.whereConditions ++ [Cond.binop column ">" b.paramCount],
      whereParams := b.whereParams ++ [value],
      paramCount := b.paramCount + 1 }

/-- `lt(column, value)`: pushes `column < $paramCount`. -/
def lt (b : QueryBuilder α) (column : String) (value : α) : QueryBuilder α :=
  { b with
      whereConditions := b.whereConditions ++ [Cond.binop column "<" b.paramCount],
      whereParams := b.whereParams ++ [value],
      paramCount := b.paramCount + 1 }

/-- `gte(column, value)`: pushes `column >= $paramCount`. -/
def gte (b : QueryBuilder α) (column : String) (value : α) : QueryBuilder α :=
  { b with
      whereConditions := b.whereConditions ++ [Cond.binop column ">=" b.paramCount],
      whereParams := b.whereParams ++ [value],
      paramCount := b.paramCount + 1 }

/-- `lte(column, value)`: pushes `column <= $paramCount`. -/
def lte (b : QueryBuilder α) (column : String) (value : α) : QueryBuilder α :=
  { b with
      whereConditions := b.whereConditions ++ [Cond.binop column "<=" b.paramCount],
      whereParams := b.whereParams ++ [value],
      paramCount := b.paramCount + 1 }

/-- `in(column, values)` (`in` is reserved in Lean): builds one placeholder
`$(paramCount + i)` per value (`values.map((_, i) => ...)`), pushes the single
`column IN (...)` condition, appends all values, and advances `paramCount` by
`values.length`. -/
def inFilter (b : QueryBuilder α) (column : String) (values : List α) :
    QueryBuilder α :=
  { b with
      whereConditions := b.whereConditions ++
        [Cond.inop column ((List.range values.length).map (fun i => b.paramCount + i))],
      whereParams := b.whereParams ++ values,
      paramCount := b.paramCount + values.length }

/-- `like(column, pattern)`: pushes `column LIKE $paramCount` (the source
types `pattern` as `string`, but it lands in the untyped `whereParams`). -/
def like (b : QueryBuilder α) (column : String) (pattern : α) : QueryBuilder α :=
  { b with
      whereConditions := b.whereConditions ++ [Cond.binop column "LIKE" b.paramCount],
      whereParams := b.whereParams ++ [pattern],
      paramCount := b.paramCount + 1 }

/-- `ilike(column, pattern)`: pushes `column ILIKE $paramCount`. -/
def ilike (b : QueryBuilder α) (column : String) (pattern : α) : QueryBuilder α :=
  { b with
      whereConditions := b.whereConditions ++ [Cond.binop column "ILIKE" b.paramCount],
      whereParams := b.whereParams ++ [pattern],
      paramCount := b.paramCount + 1 }

/-- `orderBy(column, direction)`: replaces the single sort key. -/
def orderBy (b : QueryBuilder α) (column : String) (direction : String) :
    QueryBuilder α :=
  { b with orderByColumns := [column], orderDirection := direction }

/-- `limit(value)`. -/
def limit (b : QueryBuilder α) (value : Int) : QueryBuilder α :=
  { b with limitValue := some value }

/-- `offset(value)`. -/
def offset (b : QueryBuilder α) (value : Int) : QueryBuilder α :=
  { b with offsetValue := some value }

/-- `single()`: sugar for `limit(1)`. -/
def single (b : QueryBuilder α) : QueryBuilder α :=
  { b with limitValue := some 1 }

/-- The SQL text composed by `execute()`:
`SELECT <columns> FROM <table> [WHERE ...] [ORDER BY ...] [LIMIT ...]
[OFFSET ...]`, with each clause appended under the same guards as the
source. -/
def buildExecuteQuery (b : QueryBuilder α) : String :=
  let q := "SELECT " ++ String.intercalate ", " b.columns ++ " FROM " ++ b.table
  let q := if b.whereConditions.length > 0 then
      q ++ " WHERE " ++ String.intercalate " AND " (b.whereConditions.map Cond.render)
    else q
  let q := if b.orderByColumns.length > 0 then
      q ++ " ORDER BY " ++ String.intercalate ", " b.orderByColumns ++ " " ++
        b.orderDirection
    else q
  let q := match b.limitValue with
    | some v => q ++ " LIMIT " ++ toString v
    | none => q
  match b.offsetValue with
  | some v => q ++ " OFFSET " ++ toString v
  | none => q

/-- The `(query, params)` pair `execute()` hands to
`this.client.query(query, this.whereParams)`. -/
def executeCall (b : QueryBuilder α) : String × List α :=
  (b.buildExecuteQuery, b.whereParams)

/-- The `(query, params)` pair `count()` hands to `client.query`:
`SELECT COUNT(*) FROM <table>` plus the accumulated WHERE clause, with the
accumulated `whereParams`. -/
def countCall (b : QueryBuilder α) : String × List α :=
  let q := "SELECT COUNT(*) FROM " ++ b.table
  let q := if b.whereConditions.length > 0 then
      q ++ " WHERE " ++ String.intercalate " AND " (b.whereConditions.map Cond.render)
    else q
  (q, b.whereParams)

end QueryBuilder

/-- The database driver seen by a terminal operation, abstracted as an
oracle: `client.query(text, params)` either resolves with a row list of
type `ρ` or rejects with an error of type `ε`. -/
def DB (α ρ ε : Type) : Type := String → List α → Except ε (List ρ)

/-- The `{ count, error }` object returned by `count()` (`count` is
`parseInt(result.rows[0].count)` on success, `0` in the catch branch). -/
structure CountResp (ε : Type) where
  count : Int
  error : Option ε
deriving DecidableEq

namespace QueryBuilder

variable {α ρ ε : Type}

/-- `count()`, with the driver's already-parsed integer result as oracle.
Returns the `{count, error}` object together with the builder state after
the call (the method body contains no assignment to `this`, so the state
is returned unchanged). -/
def count (b : QueryBuilder α) (dbc : String → List α → Except ε Int) :
    CountResp ε × QueryBuilder α :=
  match dbc b.countCall.1 b.countCall.2 with
  | .ok n => ({ count := n, error := none }, b)
  | .error e => ({ count := 0, error := some e }, b)

/-- What `insert`, `update` and `delete` actually return: a *fresh*
`QueryBuilder` (`new QueryBuilder<T>(this.table, this.client)`) on which
`setData`/`setError` tacked `data`/`error` fields via `(this as any)` —
not the bare `{data, error}` envelope that `execute()` returns. -/
structure BuilderWithResult (α ρ ε : Type) where
  builder : QueryBuilder α
  data : Option (List ρ)
  error : Option ε

/-- The record argument of `insert`/`update`: a JavaScript object as the
ordered association list of its own keys (`Object.keys` / `Object.values`
enumerate in insertion order). -/
def Record (α : Type) : Type := List (String × α)

/-- The `(query, values)` pair `insert(data)` hands to `client.query`:
column list and `$1..$k` placeholders derived from the record's keys, with
the multi-line template-literal whitespace of the source. -/
def insertCall (b : QueryBuilder α) (data : Record α) : String × List α :=
  let columns := (data : List (String × α)).map Prod.fst
  let values := (data : List (String × α)).map Prod.snd
  let placeholders :=
    String.intercalate ", " ((List.range values.length).map
      (fun i => "$" ++ toString (i + 1)))
  ("\n        INSERT INTO " ++ b.table ++ " (" ++
      String.intercalate ", " columns ++ ")\n        VALUES (" ++
      placeholders ++ ")\n        RETURNING *\n      ",
    values)

/-- `insert(data)`: runs the insert and returns a fresh builder carrying
the `data`/`error` fields set by `setData`/`setError`. -/
def insert (b : QueryBuilder α) (data : Record α) (db : DB α ρ ε) :
    BuilderWithResult α ρ ε :=
  match db (b.insertCall data).1 (b.insertCall data).2 with
  | .ok rows => { builder := fromTable b.table, data := some rows, error := none }
  | .error e => { builder := fromTable b.table, data := none, error := some e }

/-- The `(query, values)` pair `update(data)` hands to `client.query`:
the SET clause numbers its placeholders `$1..$k` from the record's keys
(`columns.map((col, i) => col = $(i+1))`); when filters were accumulated,
the WHERE conditions are appended *as pushed at filter time* (their
placeholder indices are whatever `paramCount` was then) and
`this.whereParams` is appended after the SET values
(`values.push(...this.whereParams)`). -/
def updateCall (b : QueryBuilder α) (data : Record α) : String × List α :=
  let columns := (data : List (String × α)).map Prod.fst
  let values := (data : List (String × α)).map Prod.snd
  let setClause :=
    String.intercalate ", " (columns.enum.map
      (fun p => p.2 ++ " = $" ++ toString (p.1 + 1)))
  let q := "\n        UPDATE " ++ b.table ++ "\n        SET " ++ setClause ++
    "\n      "
  if b.whereConditions.length > 0 then
    (q ++ " WHERE " ++
        String.intercalate " AND " (b.whereConditions.map Cond.render) ++
        " RETURNING *",
      values ++ b.whereParams)
  else
    (q ++ " RETURNING *", values)

/-- The `(query, params)` pair `delete()` hands to `client.query`. -/
def deleteCall (b : QueryBuilder α) : String × List α :=
  let q := "\n        DELETE FROM " ++ b.table ++ "\n      "
  let q := if b.whereConditions.length > 0 then
      q ++ " WHERE " ++ String.intercalate " AND " (b.whereConditions.map Cond.render)
    else q
  (q ++ " RETURNING *", b.whereParams)

end QueryBuilder

/-- One chainable filter call, with its arguments. -/
inductive FilterOp (α : Type) where
  | eq (column : String) (value : α)
  | neq (column : String) (value : α)
  | gt (column : String) (value : α)
  | lt (column : String) (value : α)
  | gte (column : String) (value : α)
  | lte (column : String) (value : α)
  | like (column : String) (pattern : α)
  | ilike (column : String) (pattern : α)
  | inop (column : String) (values : List α)

/-- Dispatch a filter call to the corresponding builder method. -/
def QueryBuilder.applyFilter {α : Type} (b : QueryBuilder α) :
    FilterOp α → QueryBuilder α
  | .eq column value => b.eq column value
  | .neq column value => b.neq column value
  | .gt column value => b.gt column value
  | .lt column value => b.lt column value
  | .gte column value => b.gte column value
  | .lte column value => b.lte column value
  | .like column pattern => b.like column pattern
  | .ilike column pattern => b.ilike column pattern
  | .inop column values => b.inFilter column values

/-- A whole chain of filter calls, applied left to right. -/
def QueryBuilder.applyFilters {α : Type} (b : QueryBuilder α)
    (ops : List (FilterOp α)) : QueryBuilder α :=
  ops.foldl QueryBuilder.applyFilter b

/-- The value(s) a filter call contributes to the parameter array, in
order. -/
def FilterOp.values {α : Type} : FilterOp α → List α
  | .eq _ value => [value]
  | .neq _ value => [value]
  | .gt _ value => [value]
  | .lt _ value => [value]
  | .gte _ value => [value]
  | .lte _ value => [value]
  | .like _ pattern => [pattern]
  | .ilike _ pattern => [pattern]
  | .inop _ values => values

/-- The value-independent part of a filter call: which method, which
column, and how many values it binds. -/
def FilterOp.shape {α : Type} : FilterOp α → String × String × Nat
  | .eq column _ => ("eq", column, 1)
  | .neq column _ => ("neq", column, 1)
  | .gt column _ => ("gt", column, 1)
  | .lt column _ => ("lt", column, 1)
  | .gte column _ => ("gte", column, 1)
  | .lte column _ => ("lte", column, 1)
  | .like column _ => ("like", column, 1)
  | .ilike column _ => ("ilike", column, 1)
  | .inop column values => ("in", column, values.length)

/-!
Transaction coordinator (`PostgresClient.transaction`).  The pool checkout
succeeds and yields one client; the three control statements
(`client.query('BEGIN')`, `'COMMIT'`, `'ROLLBACK'`) and the callback are
each abstracted by their pre-determined outcome: `Option ε` (`some e` =
that query rejects with `e`), `Except ε τ` for the callback.  The model
follows the JavaScript try/catch/finally control flow statement by
statement and records the control statements issued on the client, the
errors passed to `console.error` in the catch block, and the number of
`client.release()` calls performed by the `finally` block.
-/

/-- What the `transaction` call itself does at its boundary: either it
returns the `{data, error}` envelope, or an exception escapes it (its
promise rejects). -/
inductive TxOutcome (τ ε : Type) where
  | ret (data : Option τ) (error : Option ε)
  | raised (e : ε)
deriving DecidableEq

/-- The observable run of one `transaction` invocation. -/
structure TxRun (τ ε : Type) where
  issued : List String
  logged : List ε
  released : Nat
  cbRan : Bool
  outcome : TxOutcome τ ε

/-- The catch block: `await client.query('ROLLBACK')` — if the rollback
itself rejects, that rejection escapes the catch block (the `console.error`
line below it never runs and no envelope is returned); otherwise the
caught error is logged and `{data: null, error}` is returned.  The
`finally` block has already been accounted for by the caller passing
`released := 1`. -/
def txCatch {τ ε : Type} (e : ε) (rollbackR : Option ε) (issued : List String)
    (cbRan : Bool) : TxRun τ ε :=
  match rollbackR with
  | some e2 =>
      { issued := issued ++ ["ROLLBACK"], logged := [], released := 1,
        cbRan := cbRan, outcome := .raised e2 }
  | none =>
      { issued := issued ++ ["ROLLBACK"], logged := [e], released := 1,
        cbRan := cbRan, outcome := .ret none (some e) }

/-- `transaction(callback)`: BEGIN, run the callback, COMMIT and return
`{data: result, error: null}`; any rejection along the way enters the
catch block; `finally { client.release() }` runs on every path. -/
def transaction {τ ε : Type} (beginR : Option ε) (cb : Except ε τ)
    (commitR rollbackR : Option ε) : TxRun τ ε :=
  match beginR with
  | some e => txCatch e rollbackR ["BEGIN"] false
  | none =>
    match cb with
    | .error e => txCatch e rollbackR ["BEGIN"] true
    | .ok r =>
      match commitR with
      | some e => txCatch e rollbackR ["BEGIN", "COMMIT"] true
      | none =>
          { issued := ["BEGIN", "COMMIT"], logged := [], released := 1,
            cbRan := true, outcome := .ret (some r) none }

/-- The first rejection the try block meets: `BEGIN`'s, else the
callback's, else `COMMIT`'s. -/
def txFirstFailure {τ ε : Type} (beginR : Option ε) (cb : Except ε τ)
    (commitR : Option ε) : Option ε :=
  match beginR with
  | some e => some e
  | none =>
    match cb with
    | .error e => some e
    | .ok _ => commitR

/-- Modelled from the amended claim, for comparison with the code: if the
try block meets no rejection, return `{data: result, error: null}`; on the
first rejection, return `{data: null, error}` when `ROLLBACK` succeeds and
let the rollback rejection escape when it fails. -/
def txOutcomeSpec {τ ε : Type} (beginR : Option ε) (cb : Except ε τ)
    (commitR rollbackR : Option ε) : TxOutcome τ ε :=
  match txFirstFailure beginR cb commitR with
  | none => .ret cb.toOption none
  | some e =>
    match rollbackR with
    | none => .ret none (some e)
    | some e2 => .raised e2

/-- Available connections in the pool after a transaction run that started
with `n` available: `pool.connect()` checked out one, `client.release()`
returned `run.released` many. -/
def poolAfter {τ ε : Type} (n : Int) (run : TxRun τ ε) : Int :=
  n - 1 + run.released

/-- The SQL text `delete()` composes according to the claim: a WHERE clause
appears exactly when at least one filter was accumulated, otherwise the
statement is `DELETE FROM <table> ... RETURNING *` with no WHERE clause. -/
def deleteSqlSpec {α : Type} (b : QueryBuilder α) : String :=
  if b.whereConditions.isEmpty then
    "\n        DELETE FROM " ++ b.table ++ "\n      " ++ " RETURNING *"
  else
    "\n        DELETE FROM " ++ b.table ++ "\n      " ++ " WHERE " ++
      String.intercalate " AND " (b.whereConditions.map Cond.render) ++
      " RETURNING *"

/-- The `(query, values)` pair `update(data)` composes according to the
claim: a WHERE clause (and the appended WHERE parameters) appears exactly
when at least one filter was accumulated. -/
def updateCallSpec {α : Type} (b : QueryBuilder α) (data : QueryBuilder.Record α) :
    String × List α :=
  let setClause :=
    String.intercalate ", " (((data : List (String × α)).map Prod.fst).enum.map
      (fun p => p.2 ++ " = $" ++ toString (p.1 + 1)))
  if b.whereConditions.isEmpty then
    ("\n        UPDATE " ++ b.table ++ "\n        SET " ++ setClause ++
        "\n      " ++ " RETURNING *",
      (data : List (String × α)).map Prod.snd)
  else
    ("\n        UPDATE " ++ b.table ++ "\n        SET " ++ setClause ++
        "\n      " ++ " WHERE " ++
        String.intercalate " AND " (b.whereConditions.map Cond.render) ++
        " RETURNING *",
      (data : List (String × α)).map Prod.snd ++ b.whereParams)

/-! ## Helper lemmas -/

lemma range'_append' (s m n : Nat) :
    List.range' s m ++ List.range' (s + m) n = List.range' s (m + n) := by
  simp [Nat.add_comm]

lemma range1_concat (m : Nat) :
    List.range' 1 (m + 1) = List.range' 1 m ++ [m + 1] := by
  have h := @List.range'_concat 1 1 m
  simpa [Nat.add_comm] using h

lemma condIdxs_append (cs ds : List Cond) :
    condIdxs (cs ++ ds) = condIdxs cs ++ condIdxs ds := by
  simp [condIdxs]

lemma condIdxs_push (cs : List Cond) (c o : String) (m : Nat)
    (h : condIdxs cs = List.range' 1 m) :
    condIdxs (cs ++ [Cond.binop c o (m + 1)]) = List.range' 1 (m + 1) := by
  rw [condIdxs_append, h, range1_concat]
  simp [condIdxs, Cond.idxs]

lemma condIdxs_push_in (cs : List Cond) (c : String) (m k : Nat)
    (h : condIdxs cs = List.range' 1 m) :
    condIdxs (cs ++ [Cond.inop c ((List.range k).map (fun i => (m + 1) + i))])
      = List.range' 1 (m + k) := by
  rw [condIdxs_append, h]
  have hmap : (List.range k).map (fun i => (m + 1) + i) = List.range' (m + 1) k :=
    (List.range'_eq_map_range (m + 1) k).symm
  have happ := range'_append' 1 m k
  simp only [condIdxs, List.map_cons, List.map_nil, List.flatten, Cond.idxs,
    List.append_nil, hmap]
  simpa [Nat.add_comm] using happ

lemma step_scalar {α : Type} (b : QueryBuilder α) (c o : String) (v : α)
    (h1 : condIdxs b.whereConditions = List.range' 1 b.whereParams.length)
    (h2 : b.paramCount = b.whereParams.length + 1) :
    condIdxs (b.whereConditions ++ [Cond.binop c o b.paramCount])
      = List.range' 1 (b.whereParams ++ [v]).length
    ∧ b.paramCount + 1 = (b.whereParams ++ [v]).length + 1 := by
  constructor
  · rw [h2]
    have h := condIdxs_push b.whereConditions c o b.whereParams.length h1
    simpa using h
  · simp [h2]

lemma applyFilter_step {α : Type} (b : QueryBuilder α) (op : FilterOp α)
    (h1 : condIdxs b.whereConditions = List.range' 1 b.whereParams.length)
    (h2 : b.paramCount = b.whereParams.length + 1) :
    condIdxs (b.applyFilter op).whereConditions
      = List.range' 1 (b.applyFilter op).whereParams.length
    ∧ (b.applyFilter op).paramCount = (b.applyFilter op).whereParams.length + 1
    ∧ (b.applyFilter op).whereParams = b.whereParams ++ op.values := by
  cases op with
  | eq c v => exact ⟨(step_scalar b c "=" v h1 h2).1, (step_scalar b c "=" v h1 h2).2, rfl⟩
  | neq c v => exact ⟨(step_scalar b c "!=" v h1 h2).1, (step_scalar b c "!=" v h1 h2).2, rfl⟩
  | gt c v => exact ⟨(step_scalar b c ">" v h1 h2).1, (step_scalar b c ">" v h1 h2).2, rfl⟩
  | lt c v => exact ⟨(step_scalar b c "<" v h1 h2).1, (step_scalar b c "<" v h1 h2).2, rfl⟩
  | gte c v => exact ⟨(step_scalar b c ">=" v h1 h2).1, (step_scalar b c ">=" v h1 h2).2, rfl⟩
  | lte c v => exact ⟨(step_scalar b c "<=" v h1 h2).1, (step_scalar b c "<=" v h1 h2).2, rfl⟩
  | like c v => exact ⟨(step_scalar b c "LIKE" v h1 h2).1, (step_scalar b c "LIKE" v h1 h2).2, rfl⟩
  | ilike c v => exact ⟨(step_scalar b c "ILIKE" v h1 h2).1, (step_scalar b c "ILIKE" v h1 h2).2, rfl⟩
  | inop c vs =>
      refine ⟨?_, ?_, rfl⟩
      · show condIdxs (b.whereConditions ++
            [Cond.inop c ((List.range vs.length).map (fun i => b.paramCount + i))])
            = _
        rw [h2]
        have h := condIdxs_push_in b.whereConditions c b.whereParams.length vs.length h1
        simpa [QueryBuilder.applyFilter, QueryBuilder.inFilter] using h
      · show b.paramCount + vs.length = (b.whereParams ++ vs).length + 1
        rw [h2]
        simp
        omega

lemma applyFilters_inv {α : Type} (ops : List (FilterOp α)) :
    ∀ b : QueryBuilder α,
      condIdxs b.whereConditions = List.range' 1 b.whereParams.length →
      b.paramCount = b.whereParams.length + 1 →
      condIdxs (b.applyFilters ops).whereConditions
          = List.range' 1 (b.applyFilters ops).whereParams.length
        ∧ (b.applyFilters ops).paramCount = (b.applyFilters ops).whereParams.length + 1
        ∧ (b.applyFilters ops).whereParams
          = b.whereParams ++ (ops.map FilterOp.values).flatten := by
  induction ops with
  | nil =>
      intro b h1 h2
      exact ⟨h1, h2, by simp [QueryBuilder.applyFilters]⟩
  | cons op ops ih =>
      intro b h1 h2
      obtain ⟨g1, g2, g3⟩ := applyFilter_step b op h1 h2
      have h := ih (b.applyFilter op) g1 g2
      have hfold : b.applyFilters (op :: ops) = (b.applyFilter op).applyFilters ops := rfl
      rw [hfold]
      refine ⟨h.1, h.2.1, ?_⟩
      rw [h.2.2, g3]
      simp

lemma applyFilter_fields {α : Type} (b : QueryBuilder α) (op : FilterOp α) :
    (b.applyFilter op).table = b.table
    ∧ (b.applyFilter op).columns = b.columns
    ∧ (b.applyFilter op).orderByColumns = b.orderByColumns
    ∧ (b.applyFilter op).orderDirection = b.orderDirection
    ∧ (b.applyFilter op).limitValue = b.limitValue
    ∧ (b.applyFilter op).offsetValue = b.offsetValue := by
  cases op <;> exact ⟨rfl, rfl, rfl, rfl, rfl, rfl⟩

lemma buildExecuteQuery_congr {α : Type} (b b' : QueryBuilder α)
    (ht : b.table = b'.table) (hc : b.columns = b'.columns)
    (hw : b.whereConditions = b'.whereConditions)
    (ho : b.orderByColumns = b'.orderByColumns)
    (hd : b.orderDirection = b'.orderDirection)
    (hl : b.limitValue = b'.limitValue)
    (hf : b.offsetValue = b'.offsetValue) :
    b.buildExecuteQuery = b'.buildExecuteQuery := by
  simp [QueryBuilder.buildExecuteQuery, ht, hc, hw, ho, hd, hl, hf]

/-! ## Claim theorems -/

/-- Claim C1 (evaluation of the code at the failing input): after
`eq('id', 7)` on a fresh builder, `update({a: 1, b: 2})` binds the
parameter array `[1, 2, 7]` (SET values then WHERE values), but the WHERE
clause of the generated SQL reads `id = $1` — the index assigned at filter
time — instead of continuing at `$3` after the SET placeholders, so
placeholder `$1` is claimed by both the SET clause and the WHERE clause
while `$3` is never referenced. -/
theorem update_where_placeholders_collide :
    ((fromTable "t" : QueryBuilder Nat).eq "id" 7).updateCall [("a", 1), ("b", 2)]
      = ("\n        UPDATE t\n        SET a = $1, b = $2\n       WHERE id = $1 RETURNING *",
         [1, 2, 7]) := by
  decide

/-- Claim C2 (evaluation of the code at the failing input): what `insert`
resolves to is a fresh `QueryBuilder` over the same table that merely
carries `data`/`error` fields (mutually exclusive), not the bare
`{data, error}` envelope that `execute()` returns — so the services'
chain `from(table).insert(record).execute()` is not consuming an
envelope. -/
theorem insert_returns_builder_not_envelope {α ρ ε : Type} (b : QueryBuilder α)
    (data : QueryBuilder.Record α) (db : DB α ρ ε) :
    (b.insert data db).builder = fromTable b.table
    ∧ (b.insert data db).data.isSome = !(b.insert data db).error.isSome := by
  unfold QueryBuilder.insert
  cases db (b.insertCall data).1 (b.insertCall data).2 <;> exact ⟨rfl, rfl⟩

/-- Claim C3 counterexample: with the unit of work failing with error `1`
and `ROLLBACK` failing with error `2`, the `transaction` call raises the
rollback error `2` instead of returning the original error `1` in an
envelope, and nothing is logged (the `console.error` line sits after the
rejecting `await client.query('ROLLBACK')`). -/
theorem rollback_failure_cex :
    (transaction none (Except.error 1) none (some 2) : TxRun Nat Nat).outcome
        = TxOutcome.raised 2
    ∧ (transaction none (Except.error 1) none (some 2) : TxRun Nat Nat).outcome
        ≠ TxOutcome.ret none (some 1)
    ∧ (transaction none (Except.error 1) none (some 2) : TxRun Nat Nat).logged = [] := by
  exact ⟨rfl, by decide, rfl⟩

/-- Claim C3 (amended): if the unit of work fails with `e1` and the
subsequent ROLLBACK fails with `e2`, the rollback failure escapes
`transaction` as a raised exception `e2` — the original error `e1` is
lost and nothing is logged — while the connection is still released by
the `finally` block. -/
theorem rollback_failure_escapes {τ ε : Type} (e1 e2 : ε) (commitR : Option ε) :
    (transaction none (Except.error e1) commitR (some e2) : TxRun τ ε).outcome
        = TxOutcome.raised e2
    ∧ (transaction none (Except.error e1) commitR (some e2) : TxRun τ ε).logged = []
    ∧ (transaction none (Except.error e1) commitR (some e2) : TxRun τ ε).released = 1 := by
  exact ⟨rfl, rfl, rfl⟩

/-- Claim C4 (evaluation of the code at the failing input): `in('id', [])`
followed by `execute()` composes the malformed SQL text
`SELECT * FROM t WHERE id IN ()` — an empty `IN ()` clause the database
rejects — with an empty bound-parameter array. -/
theorem in_empty_composes_malformed_sql :
    ((fromTable "t" : QueryBuilder Nat).inFilter "id" []).buildExecuteQuery
        = "SELECT * FROM t WHERE id IN ()"
    ∧ ((fromTable "t" : QueryBuilder Nat).inFilter "id" []).executeCall.2 = [] := by
  exact ⟨by decide, rfl⟩

/-- Claim C5: for any sequence of filter calls on a fresh builder, the
placeholder indices occurring in the accumulated WHERE conditions are
exactly `$1 .. $n` in order (`n` the number of accumulated values), the
accumulated parameter array lists the filter values in call order (with
each `in` call contributing its values in element order), and `execute()`
binds exactly that array — so placeholder `$k` binds the k-th value. -/
theorem filter_param_ordering {α : Type} (table : String) (ops : List (FilterOp α)) :
    condIdxs ((fromTable table : QueryBuilder α).applyFilters ops).whereConditions
        = List.range' 1
            ((fromTable table : QueryBuilder α).applyFilters ops).whereParams.length
    ∧ ((fromTable table : QueryBuilder α).applyFilters ops).whereParams
        = (ops.map FilterOp.values).flatten
    ∧ ((fromTable table : QueryBuilder α).applyFilters ops).executeCall.2
        = ((fromTable table : QueryBuilder α).applyFilters ops).whereParams := by
  have h := applyFilters_inv ops (fromTable table)
    (by simp [fromTable, condIdxs]) (by simp [fromTable])
  exact ⟨h.1, by simpa [fromTable] using h.2.2, rfl⟩

/-- Claim C6 counterexample: with a callback that completes normally with
result `5` but a COMMIT that fails with error `7`, the transaction does
not return `{data: 5, error: null}` — it enters the catch block, issues
ROLLBACK, and returns `{data: null, error: 7}`. -/
theorem commit_failure_cex :
    (transaction none (Except.ok 5) (some 7) none : TxRun Nat Nat).outcome
        = TxOutcome.ret none (some 7)
    ∧ (transaction none (Except.ok 5) (some 7) none : TxRun Nat Nat).outcome
        ≠ TxOutcome.ret (some 5) none
    ∧ (transaction none (Except.ok 5) (some 7) none : TxRun Nat Nat).issued
        = ["BEGIN", "COMMIT", "ROLLBACK"] := by
  exact ⟨rfl, by decide, rfl⟩

/-- Claim C6 (amended): every transaction invocation issues BEGIN first,
and the callback runs only if BEGIN succeeded; if the callback completes
normally and COMMIT succeeds the call returns `{data: result, error: null}`;
if BEGIN, the callback, or COMMIT fails, ROLLBACK is issued and — when
ROLLBACK itself succeeds — the call returns `{data: null, error}` carrying
that first failure (when ROLLBACK fails, the rollback error is raised);
COMMIT is issued exactly when BEGIN succeeded and the callback completed
normally, ROLLBACK exactly when some step of the try block failed. -/
theorem transaction_behavior {τ ε : Type} (beginR : Option ε) (cb : Except ε τ)
    (commitR rollbackR : Option ε) :
    (transaction beginR cb commitR rollbackR).outcome
        = txOutcomeSpec beginR cb commitR rollbackR
    ∧ (transaction beginR cb commitR rollbackR).issued.head? = some "BEGIN"
    ∧ ((transaction beginR cb commitR rollbackR).cbRan = true ↔ beginR = none)
    ∧ ("COMMIT" ∈ (transaction beginR cb commitR rollbackR).issued
        ↔ beginR = none ∧ cb.toOption.isSome = true)
    ∧ ("ROLLBACK" ∈ (transaction beginR cb commitR rollbackR).issued
        ↔ (txFirstFailure beginR cb commitR).isSome = true) := by
  cases beginR <;> cases cb <;> cases commitR <;> cases rollbackR <;>
    simp [transaction, txCatch, txOutcomeSpec, txFirstFailure, Except.toOption]

/-- Claim C7: on every path of a transaction invocation — success,
BEGIN/callback/COMMIT failure, and even when ROLLBACK itself fails and
the call raises — the `finally` block releases the checked-out connection
exactly once, so the pool's available-connection count returns to its
pre-call value. -/
theorem transaction_releases_connection {τ ε : Type} (beginR : Option ε)
    (cb : Except ε τ) (commitR rollbackR : Option ε) (n : Int) :
    (transaction beginR cb commitR rollbackR).released = 1
    ∧ poolAfter n (transaction beginR cb commitR rollbackR) = n := by
  have h : (transaction beginR cb commitR rollbackR).released = 1 := by
    cases beginR <;> cases cb <;> cases commitR <;> cases rollbackR <;>
      simp [transaction, txCatch]
  refine ⟨h, ?_⟩
  simp [poolAfter, h]

/-- Claim C8 counterexample: for the `in` filter, two calls identical
except for the supplied value list do *not* always produce identical SQL
text — `in('id', [])` and `in('id', [0])` on a fresh builder generate
different SQL (the number of placeholders follows the list's length). -/
theorem in_sql_depends_on_length_cex :
    ((fromTable "t" : QueryBuilder Nat).inFilter "id" []).buildExecuteQuery
      ≠ ((fromTable "t" : QueryBuilder Nat).inFilter "id" [0]).buildExecuteQuery := by
  decide

/-- Claim C8 (amended): for every filter method, the generated SQL text is
independent of the supplied values themselves — two calls of the same
method on the same column whose value lists have the same length (always
true for the scalar filters, which bind exactly one value) produce
identical WHERE conditions, identical `paramCount`, and identical SQL
text, the values landing only in the positional parameter array. -/
theorem filter_sql_value_independent {α : Type} (b : QueryBuilder α)
    (op op' : FilterOp α) (h : op.shape = op'.shape) :
    (b.applyFilter op).whereConditions = (b.applyFilter op').whereConditions
    ∧ (b.applyFilter op).paramCount = (b.applyFilter op').paramCount
    ∧ (b.applyFilter op).buildExecuteQuery = (b.applyFilter op').buildExecuteQuery
    ∧ (b.applyFilter op).whereParams = b.whereParams ++ op.values := by
  have hw : (b.applyFilter op).whereConditions = (b.applyFilter op').whereConditions
      ∧ (b.applyFilter op).paramCount = (b.applyFilter op').paramCount := by
    cases op <;> cases op' <;>
      simp_all [FilterOp.shape, QueryBuilder.applyFilter, QueryBuilder.eq,
        QueryBuilder.neq, QueryBuilder.gt, QueryBuilder.lt, QueryBuilder.gte,
        QueryBuilder.lte, QueryBuilder.like, QueryBuilder.ilike, QueryBuilder.inFilter]
  have hf := applyFilter_fields b op
  have hf' := applyFilter_fields b op'
  refine ⟨hw.1, hw.2, ?_, ?_⟩
  · exact buildExecuteQuery_congr _ _ (hf.1.trans hf'.1.symm)
      (hf.2.1.trans hf'.2.1.symm) hw.1 (hf.2.2.1.trans hf'.2.2.1.symm)
      (hf.2.2.2.1.trans hf'.2.2.2.1.symm) (hf.2.2.2.2.1.trans hf'.2.2.2.2.1.symm)
      (hf.2.2.2.2.2.trans hf'.2.2.2.2.2.symm)
  · cases op <;> rfl

/-- Claim C8 witness: the amended theorem applied at two concrete `in`
calls of equal length and different values. -/
theorem filter_sql_value_independent_witness :
    (FilterOp.inop "id" [0, 1] : FilterOp Nat).shape
        = (FilterOp.inop "id" [2, 3] : FilterOp Nat).shape
    ∧ ((fromTable "t" : QueryBuilder Nat).applyFilter
          (FilterOp.inop "id" [0, 1])).buildExecuteQuery
        = ((fromTable "t" : QueryBuilder Nat).applyFilter
            (FilterOp.inop "id" [2, 3])).buildExecuteQuery :=
  ⟨by decide,
    (filter_sql_value_independent (fromTable "t") (FilterOp.inop "id" [0, 1])
      (FilterOp.inop "id" [2, 3]) (by decide)).2.2.1⟩

/-- Claim C9: `count()` hands `client.query` the text
`SELECT COUNT(*) FROM <table>` with exactly the accumulated WHERE
conditions and exactly the accumulated `whereParams`, ignoring the
projection, ordering, limit and offset settings (two builders agreeing on
table, conditions and parameters make the same count call), and it leaves
the builder state unchanged for a subsequent terminal call. -/
theorem count_frame {α ε : Type} (b b' : QueryBuilder α)
    (dbc : String → List α → Except ε Int)
    (ht : b.table = b'.table) (hw : b.whereConditions = b'.whereConditions)
    (hp : b.whereParams = b'.whereParams) :
    (b.count dbc).2 = b
    ∧ b.countCall = b'.countCall
    ∧ b.countCall.2 = b.whereParams := by
  refine ⟨?_, ?_, rfl⟩
  · unfold QueryBuilder.count
    cases dbc b.countCall.1 b.countCall.2 <;> rfl
  · simp [QueryBuilder.countCall, ht, hw, hp]

/-- Claim C9 witness: the theorem applied to two concrete builders that
agree on table, conditions and parameters but differ in projection,
ordering and limit. -/
theorem count_frame_witness :
    ((((((fromTable "t" : QueryBuilder Nat).select ["a"]).eq "id" 5).orderBy
        "a" "DESC").limit 10).count
          (fun _ _ => (Except.ok 0 : Except Unit Int))).2
      = (((((fromTable "t" : QueryBuilder Nat).select ["a"]).eq "id" 5).orderBy
          "a" "DESC").limit 10)
    ∧ (((((fromTable "t" : QueryBuilder Nat).select ["a"]).eq "id" 5).orderBy
        "a" "DESC").limit 10).countCall
      = ((fromTable "t" : QueryBuilder Nat).eq "id" 5).countCall := by
  have h := count_frame
    (((((fromTable "t" : QueryBuilder Nat).select ["a"]).eq "id" 5).orderBy
      "a" "DESC").limit 10)
    ((fromTable "t" : QueryBuilder Nat).eq "id" 5)
    (fun _ _ => (Except.ok 0 : Except Unit Int)) rfl rfl rfl
  exact ⟨h.1, h.2.1⟩

/-- Claim C10: `delete()` and `update(record)` emit a WHERE clause (and,
for update, append the accumulated WHERE parameters after the SET values)
exactly when at least one filter was accumulated; with no accumulated
filters the composed statements are `DELETE FROM <table> ... RETURNING *`
and `UPDATE <table> SET ... RETURNING *` with no WHERE clause and no
appended parameters, applying to every row of the table. -/
theorem update_delete_where_iff_filters {α : Type} (b : QueryBuilder α)
    (data : QueryBuilder.Record α) :
    b.deleteCall = (deleteSqlSpec b, b.whereParams)
    ∧ b.updateCall data = updateCallSpec b data := by
  constructor
  · unfold QueryBuilder.deleteCall deleteSqlSpec
    rcases hw : b.whereConditions with _ | ⟨c, cs⟩ <;> simp [hw]
  · unfold QueryBuilder.updateCall updateCallSpec
    rcases hw : b.whereConditions with _ | ⟨c, cs⟩ <;> simp [hw]

end PostgresClient
